import Mathlib

/-
  Verification of the referee/engine protocol implementation
  (src/ccheck.c and src/engine.c) of the Chinese-Checkers referee.

  The board-engine library (`legal_move`, `apply`, `move_number`,
  `player_to_move`, `print_move`, `read_move_from_pipe`, `bestmove`) is an
  external fixed contract; it is modelled as a parameter structure
  `BoardLib`, and move parsing as a function parameter.  `Move` is a C
  integer with 0 as the "no move" sentinel, modelled as `Nat`.
  The control flow of the two C files is embedded faithfully below.
-/

namespace CCheck

/-- The two players of `ccheck.h`: `X` is white, `O` is black. -/
inductive Player
| X
| O
deriving DecidableEq

/-- Side label used by the protocol: `(p == X) ? "white" : "black"`. -/
def side_label (p : Player) : String :=
  if p = Player.X then "white" else "black"

/-- The external board-engine library contract (ccheck.h): legality check,
move application, half-move (ply) counter, side to move, and move
serialization.  Moves are C integers, `0` meaning "no move". -/
structure BoardLib (B : Type) where
  legal_move : Nat → B → Bool
  apply : Nat → B → B
  move_number : B → Nat
  player_to_move : B → Player
  print_move : B → Nat → String

/-- Launch configuration fields of `ccheck.c`'s `Config` that the modelled
paths consult. -/
structure Config where
  play_white_engine : Bool
  play_black_engine : Bool
deriving DecidableEq

/-! ## Transport-channel events (ccheck.c protocol helpers)

Each protocol helper of `ccheck.c` is modelled by the ordered list of
externally visible channel events it performs: command-line writes,
SIGHUP deliveries, and blocking reads. -/

/-- A child peer of the referee: the display (`xdisp`) or the engine. -/
inductive Peer
| disp
| eng
deriving DecidableEq

/-- An observable transport event of the orchestrator. -/
inductive PEvent
| writeLine (p : Peer) (s : String)
| sigHUP (p : Peer)
| readLine (p : Peer)
deriving DecidableEq

/-- `send_display_move` (ccheck.c:344-355): if a display child exists, write
`>{side}:{movetext}` to it.  The source sends no signal on this path. -/
def send_display_move {B : Type} (lib : BoardLib B) (disp_present : Bool)
    (bp : B) (p : Player) (m : Nat) : List PEvent :=
  if disp_present then
    [PEvent.writeLine Peer.disp (">" ++ side_label p ++ ":" ++ lib.print_move bp m)]
  else []

/-- `notify_engine_of_opponent_move` (ccheck.c:394-426): when an engine child
exists and the mover is the engine's opponent, write `>` plus the rendered
move, deliver SIGHUP, and read one acknowledgement line. -/
def notify_engine_of_opponent_move {B : Type} (lib : BoardLib B)
    (eng_present : Bool) (cfg : Config) (mover : Player) (bp : B) (m : Nat) :
    List PEvent :=
  if eng_present then
    if (mover == Player.X && cfg.play_black_engine)
        || (mover == Player.O && cfg.play_white_engine) then
      [PEvent.writeLine Peer.eng (">" ++ lib.print_move bp m),
       PEvent.sigHUP Peer.eng, PEvent.readLine Peer.eng]
    else []
  else []

/-- Event trace of `request_move_from_engine` (ccheck.c:428-530): write `<`,
deliver SIGHUP, then read response lines. -/
def request_move_from_engine_events : List PEvent :=
  [PEvent.writeLine Peer.eng "<", PEvent.sigHUP Peer.eng, PEvent.readLine Peer.eng]

/-- Event trace of `request_move_from_display` (ccheck.c:533-541): write `<`,
deliver SIGHUP, then read one move.  A single attempt, no retry loop. -/
def request_move_from_display_events : List PEvent :=
  [PEvent.writeLine Peer.disp "<", PEvent.sigHUP Peer.disp, PEvent.readLine Peer.disp]

/-- Test whether an event is a command write. -/
def is_write_event : PEvent → Bool
| PEvent.writeLine _ _ => true
| _ => false

/-- A trace has every command write paired with a wakeup: each `writeLine` to
a peer is immediately followed by a `sigHUP` to that same peer. -/
def writes_paired_with_signal : List PEvent → Bool
| [] => true
| PEvent.writeLine p _ :: rest =>
    match rest with
    | PEvent.sigHUP q :: _ => (p == q) && writes_paired_with_signal rest
    | _ => false
| _ :: rest => writes_paired_with_signal rest

/-! ## Engine-response parsing (ccheck.c:448-530) -/

/-- Strip trailing `'\n'` / `'\r'` characters, as the read loop of
`request_move_from_engine` does after each `fgets`. -/
def trim_crlf (l : List Char) : List Char :=
  (l.reverse.dropWhile (fun c => c == '\n' || c == '\r')).reverse

/-- Strip a leading `white:` or `black:` label (6 characters), as the
`strncmp` calls at ccheck.c:476-482 do. -/
def strip_side_label (l : List Char) : List Char :=
  if l.take 6 = ("white:".data) then l.drop 6
  else if l.take 6 = ("black:".data) then l.drop 6
  else l

/-- The payload handed to the parser: side label stripped, then leading
spaces skipped (ccheck.c:484-485). -/
def engine_line_payload (l : List Char) : List Char :=
  (strip_side_label l).dropWhile (fun c => c == ' ')

/-- A response line the engine-move read loop skips without failing:
empty after newline trimming, or beginning with `'['`. -/
def engine_line_skippable (raw : List Char) : Bool :=
  (trim_crlf raw).length == 0 || (trim_crlf raw).headD ' ' == '['

/-- Outcome of `request_move_from_engine`. -/
inductive EngReqResult
| move (m : Nat)
| fatalIllegal
| fatalNoMove
deriving DecidableEq

/-- `request_move_from_engine` read loop (ccheck.c:448-529) over the list of
raw response lines: trim each line; skip blanks and `'['`-prefixed lines;
strip the side label and spaces; parse; skip lines parsing to 0; on a
nonzero parse check legality — illegal is fatal, legal is returned.
Exhausting the stream without a valid move is fatal. -/
def request_move_from_engine {B : Type} (lib : BoardLib B)
    (parse : List Char → B → Nat) (bp : B) :
    List (List Char) → EngReqResult
| [] => EngReqResult.fatalNoMove
| raw :: rest =>
    let t := trim_crlf raw
    if t.length == 0 then request_move_from_engine lib parse bp rest
    else if t.headD ' ' == '[' then request_move_from_engine lib parse bp rest
    else
      let m := parse (engine_line_payload t) bp
      if m == 0 then request_move_from_engine lib parse bp rest
      else if lib.legal_move m bp then EngReqResult.move m
      else EngReqResult.fatalIllegal

/-- Outcome of `request_move_from_display` (ccheck.c:533-541). -/
inductive DispReqResult
| fatalNoChild
| fatalEOF
| move (m : Nat)
deriving DecidableEq

/-- `request_move_from_display`: require a display child; one write + signal
+ read; a zero (EOF) parse is fatal (`die`), otherwise the move is returned. -/
def request_move_from_display (disp_present : Bool) (response : Nat) :
    DispReqResult :=
  if disp_present then
    if response == 0 then DispReqResult.fatalEOF
    else DispReqResult.move response
  else DispReqResult.fatalNoChild

/-! ## Referee commit paths (ccheck.c) -/

/-- Result of one commit attempt of the turn loop. -/
inductive CommitResult (B : Type)
| exitLoop
| fatalIllegal
| committed (b : B)

/-- The validate-and-commit step of `game_loop` (ccheck.c:583-595): a zero
move exits the loop, an illegal move is fatal before `apply`, a legal move is
applied to the authoritative board. -/
def game_loop_commit {B : Type} (lib : BoardLib B) (bp : B) (m : Nat) :
    CommitResult B :=
  if m == 0 then CommitResult.exitLoop
  else if lib.legal_move m bp then CommitResult.committed (lib.apply m bp)
  else CommitResult.fatalIllegal

/-- `load_history_if_any` (ccheck.c:374-388) over the successive results of
`read_move_from_pipe` on the history file: each nonzero move is applied to
the referee board directly; a zero result stops the replay.  No legality
check appears on this path. -/
def load_history_if_any {B : Type} (lib : BoardLib B) :
    List Nat → B → B
| [], bp => bp
| m :: ms, bp =>
    if m == 0 then bp
    else load_history_if_any lib ms (lib.apply m bp)

/-- `write_transcript_move` (ccheck.c:357-368): read the half-move number of
the board it is given, derive `turn = ply / 2 + 1`, serialize the move
against that same board, and format the line. -/
def write_transcript_move {B : Type} (lib : BoardLib B) (bp : B)
    (p : Player) (m : Nat) : String :=
  let ply := lib.move_number bp
  let turn := ply / 2 + 1
  let mv := lib.print_move bp m
  if p = Player.X then
    toString turn ++ ". " ++ side_label p ++ ":" ++ mv
  else
    toString turn ++ ". ... " ++ side_label p ++ ":" ++ mv

/-- The transcript append performed by `game_loop` for a committed move:
`apply(bp, m)` happens at ccheck.c:595 and `write_transcript_move(bp, p, m)`
only afterwards at ccheck.c:604, on the same (now post-move) board. -/
def game_loop_transcript_entry {B : Type} (lib : BoardLib B) (bp : B)
    (p : Player) (m : Nat) : String :=
  write_transcript_move lib (lib.apply m bp) p m

/-! ## Engine-side state machine (engine.c) -/

/-- Engine-local search state: the mirrored board `bp`, the principal
variation array, and the `current_depth` / `best_depth` counters of
`engine()`. -/
structure EngineState (B : Type) where
  bp : B
  principal_var : Nat → Nat
  current_depth : Nat
  best_depth : Nat

/-- The stored best line: the first `best_depth` entries of the principal
variation array. -/
def retained_line {B : Type} (st : EngineState B) : List Nat :=
  (List.range st.best_depth).map st.principal_var

/-- Time-budget computation of the request-move branch (engine.c:215-234):
when `avgtime > 0`, `time_limit` becomes
`avgtime * (move_number(bp) + 1) - (side's consumed time)` if positive;
otherwise it stays `0`, meaning no alarm is armed. -/
def compute_time_limit (avgtime : Int) (move_number : Nat)
    (xtime otime : Int) (p : Player) : Int :=
  if 0 < avgtime then
    let total_time_used := if p = Player.X then xtime else otime
    let time_remaining := avgtime * ((move_number : Int) + 1) - total_time_used
    if 0 < time_remaining then time_remaining else 0
  else 0

/-- What the engine sends back for a request-move: either one move line or
(as the specification describes) a resignation signal. -/
inductive EmitAction
| emitLine (s : String)
| resignSignal
deriving DecidableEq

/-- Move emission of the request-move branch (engine.c:329-377).  When
`best_depth >= 1`, the stored head `principal_var[0]` is printed against the
pre-move board and applied, and the depth counters reset.  Otherwise one
forced depth-1 search runs (modelled by `emergency`, standing for
`bestmove`'s principal-variation output) and its head is printed and
applied.  The source performs no legality gate before printing (the
`legal_move` call at engine.c:336 only feeds a debug log) and has no
resignation path. -/
def engine_emit_move {B : Type} (lib : BoardLib B)
    (emergency : B → Nat → Nat) (st : EngineState B) :
    EmitAction × EngineState B :=
  if 1 ≤ st.best_depth then
    let m := st.principal_var 0
    (EmitAction.emitLine (lib.print_move st.bp m),
     { st with bp := lib.apply m st.bp, current_depth := 1, best_depth := 0 })
  else
    let pv := emergency st.bp
    let m := pv 0
    (EmitAction.emitLine (lib.print_move st.bp m),
     { bp := lib.apply m st.bp, principal_var := pv,
       current_depth := 1, best_depth := 0 })

/-- The inform-move branch of `engine()` (engine.c:378-425): parse the text
after `'>'` against the mirrored board; when the parse is nonzero, apply the
move (no legality validation appears in the source) and update the stored
line — kept and shifted one ply only when `best_depth >= 1`, the head equals
the move, and `best_depth > 1`; reset to depth 1 otherwise.  In every case
(including a failed parse) the `"ok"` acknowledgement is emitted. -/
def engine_handle_inform {B : Type} (lib : BoardLib B)
    (parse : List Char → B → Nat) (st : EngineState B)
    (move_str : List Char) : EngineState B × List String :=
  let m := parse move_str st.bp
  if m == 0 then (st, ["ok"])
  else
    let bp' := lib.apply m st.bp
    if 1 ≤ st.best_depth ∧ st.principal_var 0 = m ∧ 1 < st.best_depth then
      ({ bp := bp',
         principal_var := fun i =>
           if i < st.best_depth - 1 then st.principal_var (i + 1)
           else st.principal_var i,
         current_depth := st.best_depth - 1,
         best_depth := st.best_depth - 1 }, ["ok"])
    else
      ({ bp := bp', principal_var := st.principal_var,
         current_depth := 1, best_depth := 0 }, ["ok"])

/-! ## A small concrete instance of the library contract

Used to evaluate the embedded control flow on explicit inputs.  A board is
the list of moves applied to it; move `m` is legal exactly when `m ≤ 10`;
the ply counter is the number of applied moves; the renderer prints `M`
followed by the move number. -/

/-- Concrete board library over `List Nat` boards. -/
def exLib : BoardLib (List Nat) where
  legal_move := fun m _ => decide (m ≤ 10)
  apply := fun m b => b ++ [m]
  move_number := fun b => b.length
  player_to_move := fun b => if b.length % 2 == 0 then Player.X else Player.O
  print_move := fun _ m => "M" ++ toString m

/-- Concrete move parser standing for `read_move_from_pipe` on an in-memory
stream. -/
def exParse (s : List Char) (_ : List Nat) : Nat :=
  if s = "M5".data then 5
  else if s = "white:M5".data then 5
  else if s = "white:M99".data then 99
  else if s = "white:M10".data then 10
  else 0

/-! ## Claim theorems -/

/-- C1 fails as stated: the history-preload path of `load_history_if_any`
applies a nonzero move to the authoritative board even though `legal_move`
on the pre-move board is false (move 99 is illegal on the empty board of the
concrete instance, yet replaying a one-move history commits it). -/
theorem C1_counterexample :
    load_history_if_any exLib [99] [] = [99] ∧ exLib.legal_move 99 [] = false := by
  decide

/-- C1 amended: in the turn loop an illegal move is fatal before `apply`, so
every committed move passed the pre-move legality check; but the
history-preload path applies the same nonzero illegal move to the board with
no legality check at all. -/
theorem C1_theorem {B : Type} (lib : BoardLib B) (bp : B) (m : Nat)
    (ms : List Nat) (h0 : m ≠ 0) (hleg : lib.legal_move m bp = false) :
    game_loop_commit lib bp m = CommitResult.fatalIllegal ∧
    load_history_if_any lib (m :: ms) bp =
      load_history_if_any lib ms (lib.apply m bp) := by
  constructor
  · simp [game_loop_commit, h0, hleg]
  · simp [load_history_if_any, h0]

/-- C1 witness: the amended theorem evaluated at the concrete instance, with
illegal move 99 on the empty board and a singleton history. -/
theorem C1_witness :
    game_loop_commit exLib [] 99 = CommitResult.fatalIllegal ∧
    load_history_if_any exLib (99 :: []) [] =
      load_history_if_any exLib [] (exLib.apply 99 []) :=
  C1_theorem exLib [] 99 [] (by decide) (by decide)

/-- C2 fails as stated: with a completed depth whose stored head 99 is
illegal on the engine's board, the emission step still transmits the move
line `"M99"` and never produces the resignation signal — there is no
pre-emission legality verification. -/
theorem C2_counterexample :
    (engine_emit_move exLib (fun _ _ => 0)
        ⟨[], fun _ => 99, 1, 1⟩).1 = EmitAction.emitLine "M99" ∧
    exLib.legal_move 99 [] = false ∧
    (engine_emit_move exLib (fun _ _ => 0)
        ⟨[], fun _ => 99, 1, 1⟩).1 ≠ EmitAction.resignSignal := by
  decide

/-- C2 amended: the Engine always emits exactly one move line — the stored
best-line head when a completed depth exists, otherwise the head produced by
one forced depth-1 search — with no legality verification before emitting
and no resignation path. -/
theorem C2_theorem {B : Type} (lib : BoardLib B) (emergency : B → Nat → Nat)
    (st : EngineState B) :
    (engine_emit_move lib emergency st).1 =
      EmitAction.emitLine (lib.print_move st.bp
        (if 1 ≤ st.best_depth then st.principal_var 0 else emergency st.bp 0)) := by
  by_cases h : 1 ≤ st.best_depth <;> simp [engine_emit_move, h]

/-- C3 fails as stated: informed of the nonzero move 99 that is illegal on
its mirrored board, the Engine applies it to the mirror and still emits the
`"ok"` acknowledgement, instead of terminating with a distinct exit
condition. -/
theorem C3_counterexample :
    (engine_handle_inform exLib exParse ⟨[], fun _ => 0, 1, 0⟩
        ("white:M99".data)).1.bp = [99] ∧
    exLib.legal_move 99 [] = false ∧
    (engine_handle_inform exLib exParse ⟨[], fun _ => 0, 1, 0⟩
        ("white:M99".data)).2 = ["ok"] := by
  decide

/-- C3 amended: on an inform-move command the Engine applies every nonzero
parsed move to its mirrored board without any legality validation and
acknowledges with `"ok"`; no terminate-on-illegal path exists. -/
theorem C3_theorem {B : Type} (lib : BoardLib B)
    (parse : List Char → B → Nat) (st : EngineState B) (s : List Char)
    (hm : parse s st.bp ≠ 0) :
    (engine_handle_inform lib parse st s).1.bp =
      lib.apply (parse s st.bp) st.bp ∧
    (engine_handle_inform lib parse st s).2 = ["ok"] := by
  by_cases h : 1 ≤ st.best_depth ∧ st.principal_var 0 = parse s st.bp ∧
      1 < st.best_depth <;>
    simp [engine_handle_inform, hm, h]

/-- C3 witness: the amended theorem evaluated at the concrete instance on
the illegal informed move 99. -/
theorem C3_witness :
    (engine_handle_inform exLib exParse ⟨[], fun _ => 0, 1, 0⟩
        ("white:M99".data)).1.bp =
      exLib.apply (exParse ("white:M99".data) []) [] ∧
    (engine_handle_inform exLib exParse ⟨[], fun _ => 0, 1, 0⟩
        ("white:M99".data)).2 = ["ok"] :=
  C3_theorem exLib exParse ⟨[], fun _ => 0, 1, 0⟩ ("white:M99".data) (by decide)

/-- C10: the Engine acknowledges an inform-move unconditionally — when the
transmitted text fails to parse (the parse returns the zero move) the
mirrored board and the whole engine state are left unchanged, yet `"ok"` is
still emitted, so the Orchestrator observes success while the mirror is
stale. -/
theorem C10_theorem {B : Type} (lib : BoardLib B)
    (parse : List Char → B → Nat) (st : EngineState B) (s : List Char)
    (h : parse s st.bp = 0) :
    (engine_handle_inform lib parse st s).2 = ["ok"] ∧
    (engine_handle_inform lib parse st s).1 = st := by
  simp [engine_handle_inform, h]

/-- C10 witness: the theorem evaluated at the concrete instance on an
unparseable inform payload. -/
theorem C10_witness :
    (engine_handle_inform exLib exParse ⟨[], fun _ => 0, 1, 0⟩
        ("garbage".data)).2 = ["ok"] ∧
    (engine_handle_inform exLib exParse ⟨[], fun _ => 0, 1, 0⟩
        ("garbage".data)).1 = ⟨[], fun _ => 0, 1, 0⟩ :=
  C10_theorem exLib exParse ⟨[], fun _ => 0, 1, 0⟩ ("garbage".data) (by decide)

/-- Shifting the principal-variation array left by one and shortening the
stored line by one yields the tail of the original stored line. -/
theorem retained_line_shift (pv : Nat → Nat) (d : Nat) (hd : 1 < d) :
    (List.range (d - 1)).map
        (fun i => if i < d - 1 then pv (i + 1) else pv i) =
      ((List.range d).map pv).tail := by
  obtain ⟨e, rfl⟩ : ∃ e, d = e + 1 := ⟨d - 1, by omega⟩
  simp only [Nat.add_sub_cancel, List.range_succ_eq_map, List.map_cons,
    List.map_map, List.tail_cons]
  exact List.map_congr_left fun i hi => by
    simp only [List.mem_range] at hi
    simp [hi, Function.comp, Nat.succ_eq_add_one]

/-- C4 fails as stated: with a stored line of exactly one ply whose head 5
equals the informed opponent move, the Engine does not resume deepening from
one ply shallower (`best_depth - 1 = 0`): it restarts from depth 1 and
discards the line. -/
theorem C4_counterexample :
    exParse ("white:M5".data) [] = 5 ∧
    retained_line (⟨[], fun _ => 5, 3, 1⟩ : EngineState (List Nat)) = [5] ∧
    (engine_handle_inform exLib exParse ⟨[], fun _ => 5, 3, 1⟩
        ("white:M5".data)).1.current_depth ≠ 0 ∧
    (engine_handle_inform exLib exParse ⟨[], fun _ => 5, 3, 1⟩
        ("white:M5".data)).1.best_depth = 0 := by
  decide

/-- C4 amended: when the informed move is nonzero, the stored line is kept
only under the source's condition `best_depth >= 1 && pv[0] == m &&
best_depth > 1` — then the retained line is the original line with its head
removed and deepening resumes from `best_depth - 1`; in every other case
(including a matching head with `best_depth = 1`) the line is discarded and
future deepening restarts from depth 1. -/
theorem C4_theorem {B : Type} (lib : BoardLib B)
    (parse : List Char → B → Nat) (st : EngineState B) (s : List Char)
    (hm : parse s st.bp ≠ 0) :
    ((1 ≤ st.best_depth ∧ st.principal_var 0 = parse s st.bp ∧
        1 < st.best_depth) →
      retained_line (engine_handle_inform lib parse st s).1 =
          (retained_line st).tail ∧
        (engine_handle_inform lib parse st s).1.current_depth =
          st.best_depth - 1 ∧
        (engine_handle_inform lib parse st s).1.best_depth =
          st.best_depth - 1) ∧
    (¬ (1 ≤ st.best_depth ∧ st.principal_var 0 = parse s st.bp ∧
        1 < st.best_depth) →
      (engine_handle_inform lib parse st s).1.current_depth = 1 ∧
        (engine_handle_inform lib parse st s).1.best_depth = 0) := by
  constructor
  · intro h
    refine ⟨?_, ?_, ?_⟩
    · simp only [engine_handle_inform, retained_line, hm, h, if_pos, if_true,
        beq_iff_eq, if_neg hm]
      exact retained_line_shift st.principal_var st.best_depth h.2.2
    · simp [engine_handle_inform, hm, h]
    · simp [engine_handle_inform, hm, h]
  · intro h
    constructor <;> simp [engine_handle_inform, hm, h]

/-- C4 witness: the amended theorem's carry-over branch evaluated at the
concrete instance, with stored line `[10, 11, 12]` and informed move 10. -/
theorem C4_witness :
    retained_line (engine_handle_inform exLib exParse
        ⟨[], fun i => 10 + i, 3, 3⟩ ("white:M10".data)).1 =
      (retained_line (⟨[], fun i => 10 + i, 3, 3⟩ :
        EngineState (List Nat))).tail ∧
    (engine_handle_inform exLib exParse ⟨[], fun i => 10 + i, 3, 3⟩
        ("white:M10".data)).1.current_depth = 3 - 1 ∧
    (engine_handle_inform exLib exParse ⟨[], fun i => 10 + i, 3, 3⟩
        ("white:M10".data)).1.best_depth = 3 - 1 :=
  (C4_theorem exLib exParse ⟨[], fun i => 10 + i, 3, 3⟩ ("white:M10".data)
    (by decide)).1 (by refine ⟨by decide, by decide, by decide⟩)

/-- C5 fails as stated: with `avgtime = 10`, a total of 2 half-moves played
(so the side to move — white, who moved at ply 0 while black moved at
ply 1 — has made exactly 1 move) and no time consumed, the code's budget is
`10 * (move_number + 1) = 30`, not the claimed
`avg_time_per_move * (moves_made_by_this_side + 1) = 10 * (1 + 1) = 20`:
the source multiplies by the total half-move count of both sides, not by the
moves made by the side to move. -/
theorem C5_counterexample :
    compute_time_limit 10 2 0 0 Player.X = 30 ∧ (30 : Int) ≠ 10 * (1 + 1) - 0 := by
  decide

/-- C5 amended: with a configured positive average budget, the computed
budget equals `avgtime * (total half-moves made by both sides + 1)` minus
the thinking time already consumed by the side to move, whenever that value
is positive (a non-positive value leaves `time_limit = 0`, meaning no alarm
is armed and the search is limited only by the `MAXPLY` depth ceiling, as it
also is when no budget is configured). -/
theorem C5_theorem (a : Int) (mn : Nat) (xt ot : Int) (p : Player)
    (ha : 0 < a)
    (hpos : 0 < a * ((mn : Int) + 1) - (if p = Player.X then xt else ot)) :
    compute_time_limit a mn xt ot p =
      a * ((mn : Int) + 1) - (if p = Player.X then xt else ot) := by
  simp only [compute_time_limit, if_pos ha, if_pos hpos]

/-- C5 witness: the amended theorem evaluated at `avgtime = 10`, 2 half-moves
played, no time consumed, white to move. -/
theorem C5_witness :
    compute_time_limit 10 2 0 0 Player.X =
      10 * (((2 : Nat) : Int) + 1) -
        (if Player.X = Player.X then (0 : Int) else 0) :=
  C5_theorem 10 2 0 0 Player.X (by decide) (by decide)

/-- C6 fails as stated: the inform-move write to the display
(`send_display_move`) is not paired with any wakeup signal — its event trace
is a single command write with no SIGHUP delivery. -/
theorem C6_counterexample :
    writes_paired_with_signal (send_display_move exLib true [] Player.X 5) =
      false := by
  decide

/-- C6 amended: the engine-directed command writes (request-move and
inform-move) and the display move-request write are each immediately
followed by a SIGHUP to that peer, but the inform-move write to the display
(`send_display_move`) is sent with no wakeup signal at all. -/
theorem C6_theorem {B : Type} (lib : BoardLib B) (bp : B) (m : Nat)
    (p mover : Player) (cfg : Config) (e : Bool) :
    writes_paired_with_signal request_move_from_engine_events = true ∧
    writes_paired_with_signal request_move_from_display_events = true ∧
    writes_paired_with_signal
        (notify_engine_of_opponent_move lib e cfg mover bp m) = true ∧
    writes_paired_with_signal (send_display_move lib true bp p m) = false := by
  refine ⟨rfl, rfl, ?_, rfl⟩
  unfold notify_engine_of_opponent_move
  cases e
  · rfl
  · split
    · split <;> rfl
    · rfl

/-- C7 fails as stated: on the display path a missing response (the parse
returns the zero move) is immediately fatal — `die("display produced EOF
instead of a move")` — rather than a retried soft failure, and the request
performs exactly one command write (no retry loop exists). -/
theorem C7_counterexample :
    request_move_from_display true 0 = DispReqResult.fatalEOF ∧
    request_move_from_display_events.countP is_write_event = 1 := by
  decide

/-- C7 amended: peer silence is handled symmetrically and fatally — the
display path makes a single write + signal + read attempt with no retry and
terminates on a missing response, and the engine path terminates when the
response stream yields no valid move line. -/
theorem C7_theorem {B : Type} (lib : BoardLib B)
    (parse : List Char → B → Nat) (bp : B) :
    request_move_from_display true 0 = DispReqResult.fatalEOF ∧
    request_move_from_engine lib parse bp [] = EngReqResult.fatalNoMove ∧
    request_move_from_display_events.countP is_write_event = 1 := by
  exact ⟨rfl, rfl, rfl⟩

/-- C8 fails as stated: on the concrete instance the board `[5]` has one
half-move played, so the committed move is black's move of full turn 1; the
transcript line written for it carries turn number 2, not 1, because
`game_loop` calls `write_transcript_move` after `apply`, when the half-move
count has already advanced. -/
theorem C8_counterexample :
    game_loop_transcript_entry exLib [5] Player.O 7 = "2. ... black:M7" ∧
    game_loop_transcript_entry exLib [5] Player.O 7 ≠ "1. ... black:M7" := by
  decide

/-- C8 amended: assuming the library's half-move counter advances by one on
`apply`, a first-side (white) line carries the committed move's full-turn
number `ply / 2 + 1`, but a second-side (black) line carries that turn
number plus one, since the turn is derived from the post-move half-move
count; the move text is also rendered against the post-move board. -/
theorem C8_theorem {B : Type} (lib : BoardLib B) (bp : B) (m : Nat)
    (hinc : lib.move_number (lib.apply m bp) = lib.move_number bp + 1) :
    (lib.move_number bp % 2 = 0 →
      game_loop_transcript_entry lib bp Player.X m =
        toString (lib.move_number bp / 2 + 1) ++ ". " ++ "white" ++ ":" ++
          lib.print_move (lib.apply m bp) m) ∧
    (lib.move_number bp % 2 = 1 →
      game_loop_transcript_entry lib bp Player.O m =
        toString (lib.move_number bp / 2 + 2) ++ ". ... " ++ "black" ++ ":" ++
          lib.print_move (lib.apply m bp) m) := by
  constructor
  · intro h
    have ht : (lib.move_number bp + 1) / 2 + 1 = lib.move_number bp / 2 + 1 := by
      omega
    simp [game_loop_transcript_entry, write_transcript_move, side_label, hinc, ht]
  · intro h
    have ht : (lib.move_number bp + 1) / 2 + 1 = lib.move_number bp / 2 + 2 := by
      omega
    simp [game_loop_transcript_entry, write_transcript_move, side_label, hinc, ht]

/-- C8 witness: the amended theorem's white branch evaluated at the concrete
instance on the empty board (0 half-moves played, an even count). -/
theorem C8_witness :
    game_loop_transcript_entry exLib [] Player.X 5 =
      toString (exLib.move_number ([] : List Nat) / 2 + 1) ++ ". " ++ "white"
        ++ ":" ++ exLib.print_move (exLib.apply 5 []) 5 :=
  (C8_theorem exLib [] 5 (by decide)).1 (by decide)

/-- C9: the engine-response read loop skips, without failing, every line
that is empty after newline trimming or begins with `'['`, and for a
response stream of such skippable lines followed by one line whose payload
parses to a nonzero move that is legal on the referee board, it returns that
move. -/
theorem C9_theorem {B : Type} (lib : BoardLib B)
    (parse : List Char → B → Nat) (bp : B)
    (pre : List (List Char)) (last : List Char) (m : Nat)
    (hpre : ∀ l ∈ pre, engine_line_skippable l = true)
    (hlast : engine_line_skippable last = false)
    (hm : parse (engine_line_payload (trim_crlf last)) bp = m)
    (hm0 : m ≠ 0)
    (hleg : lib.legal_move m bp = true) :
    request_move_from_engine lib parse bp (pre ++ [last]) =
      EngReqResult.move m := by
  induction pre with
  | nil =>
    simp only [engine_line_skippable, Bool.or_eq_false_iff] at hlast
    obtain ⟨h1, h2⟩ := hlast
    simp only [beq_eq_false_iff_ne, ne_eq, List.headD_eq_head?] at h1 h2
    simp [request_move_from_engine, h1, h2, hm, hm0, hleg]
  | cons l pre ih =>
    have hrest : ∀ x ∈ pre, engine_line_skippable x = true :=
      fun x hx => hpre x (by simp [hx])
    have hl := hpre l (by simp)
    simp only [engine_line_skippable, Bool.or_eq_true, beq_iff_eq,
      List.headD_eq_head?] at hl
    rcases hl with h1 | h2
    · simpa [request_move_from_engine, h1] using ih hrest
    · by_cases h1 : (trim_crlf l).length = 0
      · simpa [request_move_from_engine, h1] using ih hrest
      · simpa [request_move_from_engine, h1, h2] using ih hrest

/-- C9 witness: the theorem evaluated at the concrete instance on a stream
of a blank line and a bracketed log line followed by the legal move line
`white: M5`. -/
theorem C9_witness :
    request_move_from_engine exLib exParse []
        ([['\n'], ("[dbg]".data ++ ['\n'])] ++ [("white: M5".data ++ ['\n'])]) =
      EngReqResult.move 5 :=
  C9_theorem exLib exParse [] [['\n'], ("[dbg]".data ++ ['\n'])]
    ("white: M5".data ++ ['\n']) 5 (by decide) (by decide) (by decide)
    (by decide) (by decide)

end CCheck
